import Mathlib

/-!
Shallow embedding of the telemetry ingestion pipeline and zone alarm state
machine of `src/src/application/mqtt_handler.py`, together with the
administrative zone/alarm operations of `src/src/application/fcs_api.py`.

Modelling conventions:
* MongoDB-style documents become Lean structures.  The two source files
  address the same logical fields through slightly different dictionary
  paths (`zone['data']['status']` in `mqtt_handler.py` versus
  `zone['entity']['data']['status']` in `fcs_api.py`); both are modelled
  by the single field `ZoneRec.status`, and similarly for node and alarm
  records.
* Every call to `datetime.now(timezone.utc)` is modelled by a logical
  clock `SysState.now` (time does not advance inside one handler call).
* A node's zone reference can be Python `None`, the empty string `""`
  (as written by `_handle_discovery`), or a zone id; it is modelled as
  `Option String` with `none` for `None`, and Python truthiness of the
  value (`if zone_id and ...`) is the function `truthy`.
* Exceptions raised while handling an MQTT message are caught by the
  `try/except` in `_on_message`, which only logs; every raising path
  therefore just stops, keeping the state mutated so far.  The embedding
  returns that state directly at those spots (noted in comments).
* Outbound MQTT publishes are collected into a `List Cmd` result;
  `send_command` publishes only when the client is connected, modelled by
  the flag `SysState.connected`.
-/

/-- Latest readings and lifecycle data of a node (`node['data']` in
`mqtt_handler.py`, `node['entity']['data']` in `fcs_api.py`).  The three
reading fields are `Option`s because a freshly provisioned node document
has no such keys (`_handle_discovery` writes only `status` and
`last_seen`). -/
structure NodeData where
  status : String
  last_seen : Nat
  flame_detected : Option Bool := none
  smoke_level : Option Rat := none
  temp_level : Option Rat := none
deriving DecidableEq

/-- A node document: device identity (`profile.mac_address`), optional zone
reference (`profile.zone_id`) and its data block. -/
structure NodeRec where
  nid : Nat
  mac_address : String
  zone_id : Option String
  data : NodeData
deriving DecidableEq

/-- A zone document.  The thresholds are `Option`s because
`_check_zone_thresholds` reads them with `zone_data.get(key, default)`;
`mac_address` is an `Option` because zone documents created by
`create_zone` have no such key (the `stop_alarm` branch of
`_check_zone_thresholds` reads `zone['profile']['mac_address']`, which
raises `KeyError` on such a zone). -/
structure ZoneRec where
  zid : String
  name : String
  temp_threshold : Option Rat := none
  smoke_threshold : Option Rat := none
  status : String
  mac_address : Option String := none
deriving DecidableEq

/-- An alarm document (`profile.zone_id`, `profile.trigger_cause`,
`data.start_time`, `data.end_time`). -/
structure AlarmRec where
  aid : Nat
  zone_id : String
  trigger_cause : String
  start_time : Nat
  end_time : Option Nat
deriving DecidableEq

/-- The persistent store plus the ambient clock and MQTT connection flag. -/
structure SysState where
  nodes : List NodeRec
  zones : List ZoneRec
  alarms : List AlarmRec
  nextNodeId : Nat := 0
  nextAlarmId : Nat := 0
  now : Nat := 0
  connected : Bool := true
deriving DecidableEq

/-- An outbound MQTT publish: (mac address, command string). -/
abbrev Cmd := String × String

/-- Python truthiness of a node's `zone_id` value: `None` and `""` are
falsy, any other string is truthy. -/
def truthy : Option String → Bool
  | none => false
  | some s => !(s == "")

/-- `db_service.get_dr('zone', zone_id)`. -/
def getZone (st : SysState) (zone_id : String) : Option ZoneRec :=
  st.zones.find? (fun z => z.zid == zone_id)

/-- `db_service.update_dr('zone', zone_id, z)`: replace the document(s)
with that id. -/
def updateZone (st : SysState) (zone_id : String) (z : ZoneRec) : SysState :=
  { st with zones := st.zones.map (fun z0 => if z0.zid == zone_id then z else z0) }

/-- `db_service.update_dr('node', nid, n)`. -/
def updateNode (st : SysState) (nid : Nat) (n : NodeRec) : SysState :=
  { st with nodes := st.nodes.map (fun n0 => if n0.nid == nid then n else n0) }

/-- `db_service.query_drs('node', {'profile.mac_address': mac})`. -/
def nodesByMac (st : SysState) (mac : String) : List NodeRec :=
  st.nodes.filter (fun n => n.mac_address == mac)

/-- `db_service.query_drs('node', {'profile.zone_id': zone_id})`. -/
def nodesByZone (st : SysState) (zone_id : String) : List NodeRec :=
  st.nodes.filter (fun n => n.zone_id == some zone_id)

/-- `db_service.query_drs('alarm', {'profile.zone_id': zone_id,
'data.end_time': None})`: the open alarms of a zone. -/
def openAlarmsFor (st : SysState) (zone_id : String) : List AlarmRec :=
  st.alarms.filter (fun a => a.zone_id == zone_id && a.end_time == none)

/-- Creation and save of a fresh alarm document with `end_time = None` and
`start_time = now`, as done both by `_trigger_alarm` (mqtt) and
`trigger_alarm` (api). -/
def saveAlarm (st : SysState) (zone_id trigger_cause : String) : SysState :=
  { st with
    alarms := st.alarms ++
      [{ aid := st.nextAlarmId, zone_id := zone_id, trigger_cause := trigger_cause,
         start_time := st.now, end_time := none }],
    nextAlarmId := st.nextAlarmId + 1 }

/-- ASCII whitespace for the model of Python `str.strip()`. -/
def isSpaceChar (c : Char) : Bool :=
  c == ' ' || c == '\t' || c == '\n' || c == '\r'

/-- Python `str.strip()` with no argument: remove whitespace at both ends. -/
def pyStrip (s : String) : String :=
  String.mk (((s.toList.dropWhile isSpaceChar).reverse.dropWhile isSpaceChar).reverse)

/-- Split a character list at every occurrence of `sep`, keeping empty
pieces, exactly like Python `str.split(sep)` with a one-character
separator. -/
def splitChar (sep : Char) : List Char → List (List Char)
  | [] => [[]]
  | c :: rest =>
    let r := splitChar sep rest
    if c == sep then [] :: r
    else
      match r with
      | [] => [[c]]
      | h :: t => (c :: h) :: t

/-- Python `topic.split('/')` (general one-character separator). -/
def pySplit (s : String) (sep : Char) : List String :=
  (splitChar sep s.toList).map (fun cs => String.mk cs)

/-- Numeric value of a digit list, most significant first. -/
def digitsVal (cs : List Char) : Nat :=
  cs.foldl (fun a c => 10 * a + (c.toNat - 48)) 0

/-- Model of Python `float(payload)` on the plain decimal strings the
devices publish (optional sign, digits, optional `.` and fraction digits,
surrounding whitespace allowed); returns `none` exactly when Python would
raise `ValueError` on such strings.  Exotic float syntax (exponents,
`inf`, `nan`, underscores) is out of the modelled input space. -/
def pyFloat (s : String) : Option Rat :=
  let body := (pyStrip s).toList
  let signed : Int × List Char :=
    match body with
    | '-' :: r => (-1, r)
    | '+' :: r => (1, r)
    | r => (1, r)
  let sign := signed.1
  let digits := signed.2
  let intPart := digits.takeWhile (fun c => !(c == '.'))
  match digits.dropWhile (fun c => !(c == '.')) with
  | [] =>
    if intPart ≠ [] ∧ intPart.all Char.isDigit then
      some (mkRat (sign * (digitsVal intPart : Int)) 1)
    else none
  | _ :: fracPart =>
    if (intPart ≠ [] ∨ fracPart ≠ []) ∧ intPart.all Char.isDigit ∧
        fracPart.all Char.isDigit then
      some (mkRat (sign * ((digitsVal intPart * 10 ^ fracPart.length
               + digitsVal fracPart : Nat) : Int)) (10 ^ fracPart.length))
    else none

/-- The alarm-cause selection of `_check_zone_thresholds` (lines 139-146):
an `if/elif/elif` chain over the accumulated values, producing `""` when
no cause applies. -/
def alarm_type_for (temp_threshold smoke_threshold val_temp val_smoke : Rat)
    (val_flame : Bool) : String :=
  if val_temp > temp_threshold then "Temperature"
  else if val_smoke > smoke_threshold then "Smoke"
  else if val_flame then "Flame"
  else ""

namespace MQTTHandler

/-- `_handle_discovery(mac_address)`: if no node has this mac address,
create one with status `Provisioning`, zone reference `""` and only
`status`/`last_seen` in its data block. -/
def handle_discovery (st : SysState) (mac_address : String) : SysState :=
  if (nodesByMac st mac_address).isEmpty then
    { st with
      nodes := st.nodes ++
        [{ nid := st.nextNodeId, mac_address := mac_address, zone_id := some "",
           data := { status := "Provisioning", last_seen := st.now } }],
      nextNodeId := st.nextNodeId + 1 }
  else st

/-- `send_command(mac_address, command)`: publish only when connected. -/
def send_command (st : SysState) (mac_address command : String) : List Cmd :=
  if st.connected then [(mac_address, command)] else []

/-- `_trigger_alarm(zone_id, alarm_type)`: set the zone's status to the
cause, open a new alarm row only if the zone has no open alarm, then
publish `actuate_alarm` to every node of the zone. -/
def trigger_alarm (st : SysState) (zone_id alarm_type : String) :
    SysState × List Cmd :=
  match getZone st zone_id with
  | none =>
    -- `zone['data']` on `None` raises; caught in `_on_message`, nothing done.
    (st, [])
  | some zone =>
    let st1 := updateZone st zone_id { zone with status := alarm_type }
    let existing := openAlarmsFor st1 zone_id
    let st2 := if existing.isEmpty then saveAlarm st1 zone_id alarm_type else st1
    let members := nodesByZone st2 zone_id
    (st2, members.foldr (fun n acc => send_command st2 n.mac_address "actuate_alarm" ++ acc) [])

/-- `_check_zone_thresholds(zone_id, val_temp, val_smoke, val_flame)`:
look up the zone, select a cause with `alarm_type_for` (thresholds read
with defaults 50.0 / 500.0), trigger when a cause applies; otherwise, if
the zone status is `Active` and it has no open manual alarm, try to send
`stop_alarm` to `zone['profile']['mac_address']` — an access that raises
`KeyError` when the zone document has no such key (caught upstream). -/
def check_zone_thresholds (st : SysState) (zone_id : String)
    (val_temp val_smoke : Rat) (val_flame : Bool) : SysState × List Cmd :=
  match getZone st zone_id with
  | none => (st, [])
  | some zone =>
    let temp_threshold := zone.temp_threshold.getD 50
    let smoke_threshold := zone.smoke_threshold.getD 500
    let alarm_type := alarm_type_for temp_threshold smoke_threshold val_temp val_smoke val_flame
    if alarm_type ≠ "" then trigger_alarm st zone_id alarm_type
    else
      if zone.status == "Active" then
        let existing := st.alarms.filter (fun a =>
          a.zone_id == zone_id && a.trigger_cause == "manual" && a.end_time == none)
        if existing.isEmpty then
          match zone.mac_address with
          | some m => (st, send_command st m "stop_alarm")
          | none => (st, [])   -- KeyError raised here, caught in `_on_message`
        else (st, [])
      else (st, [])

/-- The accumulation of `val_flame`, `val_smoke`, `val_temp` at the top of
`_process_sensor_data` (lines 94-106): every field starts at its default
and only the one matching `sensor_type` is parsed from the payload;
`none` models the `ValueError` early return.  The triple is
`(val_flame, val_smoke, val_temp)`. -/
def parse_sensor_vals (sensor_type payload_str : String) :
    Option (Bool × Rat × Rat) :=
  if sensor_type == "flame" then some (pyStrip payload_str == "0", 0, 0)
  else if sensor_type == "smoke" then
    match pyFloat payload_str with
    | some v => some (false, v, 0)
    | none => none
  else if sensor_type == "temp" then
    match pyFloat payload_str with
    | some v => some (false, 0, v)
    | none => none
  else some (false, 0, 0)

/-- `_process_sensor_data(mac_address, sensor_type, payload_str)`: parse
the value, auto-provision unknown devices (discarding the reading),
otherwise overwrite the node's reading block and, when the node has a
truthy zone reference and status `Active`, evaluate the zone thresholds. -/
def process_sensor_data (st : SysState) (mac_address sensor_type payload_str : String) :
    SysState × List Cmd :=
  match parse_sensor_vals sensor_type payload_str with
  | none => (st, [])
  | some (val_flame, val_smoke, val_temp) =>
    match nodesByMac st mac_address with
    | [] => (handle_discovery st mac_address, [])
    | node :: _ =>
      let node1 : NodeRec :=
        { node with data :=
          { status := node.data.status, last_seen := st.now,
            flame_detected := some val_flame, smoke_level := some val_smoke,
            temp_level := some val_temp } }
      let st1 := updateNode st node.nid node1
      if truthy node.zone_id && node.data.status == "Active" then
        check_zone_thresholds st1 (node.zone_id.getD "") val_temp val_smoke val_flame
      else (st1, [])

/-- `_on_message`: UTF-8 decode (a `none` payload models decode failure),
topic split, malformed-topic guard, then dispatch to discovery or sensor
handling. -/
def on_message (st : SysState) (topic : String) (payload : Option String) :
    SysState × List Cmd :=
  match payload with
  | none => (st, [])
  | some payload_str =>
    let parts := pySplit topic '/'
    if parts.length < 3 then (st, [])
    else
      let mac_address := parts.getD 1 ""
      let category := parts.getD 2 ""
      if category == "discovery" then
        (if payload_str == "online" then handle_discovery st mac_address else st, [])
      else if category == "sensor" ∧ 3 < parts.length then
        process_sensor_data st mac_address (parts.getD 3 "") payload_str
      else (st, [])

end MQTTHandler

namespace FcsApi

/-!
`fcs_api.py` imports only the class (`from datetime import datetime`) but
writes every timestamp as `datetime.now(datetime.timezone.utc)`.  The
`datetime` *class* has no `timezone` attribute (it lives in the module),
so each of these expressions raises `AttributeError` deterministically;
every route body is wrapped in `except Exception`, which turns that into
an HTTP 500 response.  Each definition below therefore returns the state
persisted up to the raise (the raise always precedes the first
`update_dr`/`insert_dr`/`delete_dr` of the affected path, and in-memory
dict mutation before the raise is never persisted) together with the
status code, 500 on the crashing paths.  (`mqtt_handler.py` imports
`timezone` correctly and is unaffected.)
-/

/-- `delete_zone(zone_id)`: 404 when absent.  With no member node the
detach loop body never runs and the zone document is deleted (200).
With at least one member node, the first loop iteration raises before
`update_dr` (`node['entity']['data']` at fcs_api.py:56 for
MQTT-provisioned nodes, otherwise `datetime.timezone` at line 57), so
nothing is persisted, the zone is not deleted, and the route returns
500. -/
def delete_zone (st : SysState) (zone_id : String) : SysState × Nat :=
  match getZone st zone_id with
  | none => (st, 404)
  | some _ =>
    match nodesByZone st zone_id with
    | [] => ({ st with zones := st.zones.filter (fun z => !(z.zid == zone_id)) }, 200)
    | _ :: _ => (st, 500)

/-- `resolve_alarms(zone_id)`: 404 when absent; early 200 without any
write when the zone is `Inactive` or `Active` (no timestamp is evaluated
on that path).  For a zone in any alarm-cause status, after the
read-only open-alarm query, `now = datetime.now(datetime.timezone.utc)`
at fcs_api.py:82 raises before any write: no alarm is closed, the zone
status is not changed, and the route returns 500. -/
def resolve_alarms (st : SysState) (zone_id : String) : SysState × Nat :=
  match getZone st zone_id with
  | none => (st, 404)
  | some zone =>
    if zone.status == "Inactive" || zone.status == "Active" then (st, 200)
    else (st, 500)

/-- `trigger_alarm` (POST /alarms): validate the cause (400 otherwise),
404 when the zone is absent.  Otherwise, building `alarm_data` evaluates
`datetime.now(datetime.timezone.utc)` at fcs_api.py:240, which raises
before `insert_dr`: no alarm row is inserted, no zone status is changed,
and the route returns 500. -/
def trigger_alarm (st : SysState) (zone_id trigger_cause : String) :
    SysState × Nat :=
  if trigger_cause ∈ ["manual", "temp", "smoke", "flame"] then
    match getZone st zone_id with
    | none => (st, 404)
    | some _ => (st, 500)
  else (st, 400)

end FcsApi

/-! ## Helper lemmas -/

/-- Replacing the documents with a given id and looking that id up again
finds the replacement, provided the replacement keeps the id of the
document previously found. -/
theorem find?_map_update {zones : List ZoneRec} {zone_id : String} {z newz : ZoneRec}
    (hz : zones.find? (fun z0 => z0.zid == zone_id) = some z) (hid : newz.zid = z.zid) :
    (zones.map (fun z0 => if z0.zid == zone_id then newz else z0)).find?
      (fun z0 => z0.zid == zone_id) = some newz := by
  induction zones with
  | nil => simp at hz
  | cons a l ih =>
    rw [List.find?_cons] at hz
    by_cases h : (a.zid == zone_id) = true
    · rw [h] at hz
      injection hz with hz
      subst hz
      have hnew : (newz.zid == zone_id) = true := by
        rw [hid]; exact h
      simp only [List.map_cons, if_pos h]
      rw [List.find?_cons, hnew]
    · rw [Bool.not_eq_true] at h
      rw [h] at hz
      simp only [List.map_cons, if_neg (by rw [h]; simp : ¬(a.zid == zone_id) = true)]
      rw [List.find?_cons, h]
      exact ih hz

theorem getZone_updateZone {st : SysState} {zone_id : String} {z newz : ZoneRec}
    (hz : getZone st zone_id = some z) (hid : newz.zid = z.zid) :
    getZone (updateZone st zone_id newz) zone_id = some newz :=
  find?_map_update hz hid

/-- The only cause strings `alarm_type_for` can produce. -/
theorem alarm_type_for_cases (tth sth t s : Rat) (f : Bool) :
    alarm_type_for tth sth t s f = "Temperature" ∨
    alarm_type_for tth sth t s f = "Smoke" ∨
    alarm_type_for tth sth t s f = "Flame" ∨
    alarm_type_for tth sth t s f = "" := by
  unfold alarm_type_for
  split
  · exact Or.inl rfl
  · split
    · exact Or.inr (Or.inl rfl)
    · split
      · exact Or.inr (Or.inr (Or.inl rfl))
      · exact Or.inr (Or.inr (Or.inr rfl))

theorem alarm_type_for_ne_active (tth sth t s : Rat) (f : Bool) :
    alarm_type_for tth sth t s f ≠ "Active" := by
  rcases alarm_type_for_cases tth sth t s f with h | h | h | h <;>
    rw [h] <;> decide

/-- The safety facts the ingestion pipeline must preserve for claim C5:
no zone status is ever set (back) to `Active` by the pipeline, and no
alarm record is modified by it (in particular no open alarm is closed). -/
def pipelinePreservesSafety (st stNew : SysState) : Prop :=
  (∀ z1 ∈ stNew.zones, z1.status = "Active" →
      ∃ z0 ∈ st.zones, z0.zid = z1.zid ∧ z0.status = "Active") ∧
  (∀ a0 ∈ st.alarms, ∃ a1 ∈ stNew.alarms, a1.aid = a0.aid ∧ a1.end_time = a0.end_time)

theorem pipelinePreservesSafety_refl (st : SysState) : pipelinePreservesSafety st st := by
  refine ⟨fun z1 hz1 hact => ⟨z1, hz1, rfl, hact⟩, fun a0 ha0 => ⟨a0, ha0, rfl, rfl⟩⟩

/-- Transport of the safety predicate along states with syntactically
equal zone and alarm components. -/
theorem pipelinePreservesSafety_of_eq {st st1 stNew : SysState}
    (hzs : st.zones = st1.zones) (has : st.alarms = st1.alarms)
    (h : pipelinePreservesSafety st1 stNew) : pipelinePreservesSafety st stNew := by
  refine ⟨fun z1 hz1 hact => ?_, fun a0 ha0 => ?_⟩
  · rw [hzs]; exact h.1 z1 hz1 hact
  · exact h.2 a0 (has ▸ ha0)

theorem handle_discovery_zones (st : SysState) (mac : String) :
    (MQTTHandler.handle_discovery st mac).zones = st.zones := by
  unfold MQTTHandler.handle_discovery
  split <;> rfl

theorem handle_discovery_alarms (st : SysState) (mac : String) :
    (MQTTHandler.handle_discovery st mac).alarms = st.alarms := by
  unfold MQTTHandler.handle_discovery
  split <;> rfl

theorem trigger_alarm_preservesSafety (st : SysState) (zone_id c : String)
    (hc : c ≠ "Active") :
    pipelinePreservesSafety st (MQTTHandler.trigger_alarm st zone_id c).1 := by
  unfold MQTTHandler.trigger_alarm
  cases hz : getZone st zone_id with
  | none => exact pipelinePreservesSafety_refl st
  | some zone =>
    simp only
    constructor
    · intro z1 hz1 hact
      split at hz1 <;>
      · simp only [saveAlarm, updateZone, List.mem_map] at hz1
        obtain ⟨z0, hz0, hz0eq⟩ := hz1
        by_cases hcase : (z0.zid == zone_id) = true
        · rw [if_pos hcase] at hz0eq
          exfalso
          apply hc
          rw [← hz0eq] at hact
          exact hact
        · rw [if_neg hcase] at hz0eq
          subst hz0eq
          exact ⟨z0, hz0, rfl, hact⟩
    · intro a0 ha0
      split
      · refine ⟨a0, ?_, rfl, rfl⟩
        simp only [saveAlarm, updateZone]
        exact List.mem_append_left _ ha0
      · exact ⟨a0, ha0, rfl, rfl⟩

theorem check_zone_thresholds_preservesSafety (st : SysState) (zone_id : String)
    (t s : Rat) (f : Bool) :
    pipelinePreservesSafety st (MQTTHandler.check_zone_thresholds st zone_id t s f).1 := by
  unfold MQTTHandler.check_zone_thresholds
  cases hz : getZone st zone_id with
  | none => exact pipelinePreservesSafety_refl st
  | some zone =>
    simp only
    split
    · exact trigger_alarm_preservesSafety st zone_id _
        (alarm_type_for_ne_active _ _ _ _ _)
    · split
      · split
        · split
          · exact pipelinePreservesSafety_refl st
          · exact pipelinePreservesSafety_refl st
        · exact pipelinePreservesSafety_refl st
      · exact pipelinePreservesSafety_refl st

theorem process_sensor_data_preservesSafety (st : SysState)
    (mac sensor_type payload : String) :
    pipelinePreservesSafety st (MQTTHandler.process_sensor_data st mac sensor_type payload).1 := by
  unfold MQTTHandler.process_sensor_data
  cases hp : MQTTHandler.parse_sensor_vals sensor_type payload with
  | none => exact pipelinePreservesSafety_refl st
  | some vals =>
    obtain ⟨vf, vs, vt⟩ := vals
    simp only
    cases hn : nodesByMac st mac with
    | nil =>
      refine pipelinePreservesSafety_of_eq ?_ ?_
        (pipelinePreservesSafety_refl (MQTTHandler.handle_discovery st mac))
      · exact (handle_discovery_zones st mac).symm
      · exact (handle_discovery_alarms st mac).symm
    | cons node rest =>
      simp only
      split
      · refine pipelinePreservesSafety_of_eq ?_ ?_
          (check_zone_thresholds_preservesSafety _ _ _ _ _) <;> rfl
      · exact pipelinePreservesSafety_refl _

/-! ## Sample states used by witnesses and counterexamples -/

/-- A zone `z1` in normal `Active` state. -/
def zoneActive : ZoneRec :=
  { zid := "z1", name := "Zone 1", temp_threshold := some 50,
    smoke_threshold := some 500, status := "Active" }

/-- A node `m1` assigned to zone `z1` and `Active`. -/
def nodeActive : NodeRec :=
  { nid := 0, mac_address := "m1", zone_id := some "z1",
    data := { status := "Active", last_seen := 0 } }

/-- One active node in one active zone, no alarms. -/
def baseState : SysState :=
  { nodes := [nodeActive], zones := [zoneActive], alarms := [],
    nextNodeId := 1, nextAlarmId := 0, now := 7, connected := true }

/-- A completely empty store. -/
def emptyState : SysState :=
  { nodes := [], zones := [], alarms := [], nextNodeId := 0,
    nextAlarmId := 0, now := 3, connected := true }

/-! ## Claims -/

/-- Claim C5 (confirmed): the ingestion pipeline never sets a zone's
status back to `Active` (any zone `Active` after a message was already
`Active` before) and never closes — indeed never modifies — an alarm
record; in particular readings that have fallen back under the
thresholds neither resolve the zone nor close its open alarm, which only
the administrative resolve action does. -/
theorem c5_pipeline_never_resolves (st : SysState) (topic : String)
    (payload : Option String) :
    pipelinePreservesSafety st (MQTTHandler.on_message st topic payload).1 := by
  unfold MQTTHandler.on_message
  cases payload with
  | none => exact pipelinePreservesSafety_refl st
  | some payload_str =>
    simp only
    split
    · exact pipelinePreservesSafety_refl st
    · split
      · split
        · exact pipelinePreservesSafety_of_eq
            (handle_discovery_zones st _).symm (handle_discovery_alarms st _).symm
            (pipelinePreservesSafety_refl _)
        · exact pipelinePreservesSafety_refl st
      · split
        · exact process_sensor_data_preservesSafety st _ _ _
        · exact pipelinePreservesSafety_refl st

theorem c5_pipeline_never_resolves_witness :
    pipelinePreservesSafety baseState
      (MQTTHandler.on_message baseState "devices/m1/sensor/temp" (some "60.0")).1 :=
  c5_pipeline_never_resolves baseState "devices/m1/sensor/temp" (some "60.0")

/-- Claim C9 (confirmed): a message whose topic has fewer than 3
slash-separated segments, or whose payload is not valid UTF-8, is
dropped: the handler returns with the state unchanged and no command
published (and, being a total function, raises nothing). -/
theorem c9_malformed_dropped (st : SysState) (topic : String)
    (payload : Option String)
    (h : (pySplit topic '/').length < 3 ∨ payload = none) :
    MQTTHandler.on_message st topic payload = (st, []) := by
  cases payload with
  | none => rfl
  | some p =>
    rcases h with h | h
    · unfold MQTTHandler.on_message
      simp only [if_pos h]
    · simp at h

theorem c9_malformed_dropped_witness :
    ((pySplit "devices/abc" '/').length < 3 ∨ (some "x" : Option String) = none) ∧
      MQTTHandler.on_message baseState "devices/abc" (some "x") = (baseState, []) :=
  ⟨Or.inl (by decide),
   c9_malformed_dropped baseState "devices/abc" (some "x") (Or.inl (by decide))⟩

/-- Claim C10 (confirmed): a sensor message for an unknown device address
(whose payload parses) auto-provisions exactly one new node with status
`Provisioning`, zone reference `""` (no zone) and no stored reading
values, leaves zones and alarms untouched, publishes nothing, and never
evaluates thresholds. -/
theorem c10_unknown_device_provisioned (st : SysState)
    (mac sensor_type payload : String) (vals : Bool × Rat × Rat)
    (hp : MQTTHandler.parse_sensor_vals sensor_type payload = some vals)
    (hn : nodesByMac st mac = []) :
    MQTTHandler.process_sensor_data st mac sensor_type payload =
      ({ st with
         nodes := st.nodes ++
           [{ nid := st.nextNodeId, mac_address := mac, zone_id := some "",
              data := { status := "Provisioning", last_seen := st.now } }],
         nextNodeId := st.nextNodeId + 1 }, []) := by
  unfold MQTTHandler.process_sensor_data
  rw [hp]
  obtain ⟨vf, vs, vt⟩ := vals
  simp only [hn, MQTTHandler.handle_discovery, List.isEmpty_nil, if_pos]

theorem c10_unknown_device_provisioned_witness :
    MQTTHandler.parse_sensor_vals "temp" "55.0" = some (false, 0, 55) ∧
    nodesByMac emptyState "aa" = [] ∧
    MQTTHandler.process_sensor_data emptyState "aa" "temp" "55.0" =
      ({ emptyState with
         nodes :=
           [{ nid := 0, mac_address := "aa", zone_id := some "",
              data := { status := "Provisioning", last_seen := 3 } }],
         nextNodeId := 1 }, []) := by
  refine ⟨by decide, by decide, ?_⟩
  have h := c10_unknown_device_provisioned emptyState "aa" "temp" "55.0"
    (false, 0, 55) (by decide) (by decide)
  simpa [emptyState] using h

/-- A zone `z1` currently alarming with cause `Temperature`. -/
def zoneTemp : ZoneRec :=
  { zid := "z1", name := "Zone 1", temp_threshold := some 50,
    smoke_threshold := some 500, status := "Temperature" }

/-- An open `Temperature` alarm for zone `z1`. -/
def openTempAlarm : AlarmRec :=
  { aid := 0, zone_id := "z1", trigger_cause := "Temperature",
    start_time := 5, end_time := none }

/-- Zone `z1` already alarming on `Temperature`, with its open alarm row
and one active member node. -/
def alarmTempState : SysState :=
  { nodes := [nodeActive], zones := [zoneTemp], alarms := [openTempAlarm],
    nextNodeId := 1, nextAlarmId := 1, now := 9, connected := true }

/-- Claim C6 (code bug): on zone `z1`, in status `Temperature` with one
open alarm and an assigned node, the administrative resolve crashes
(`datetime.timezone` `AttributeError` at fcs_api.py:82) before any
write: the response is 500, the open alarm row keeps `end_time = null`
and the zone status stays `Temperature` — resolve never closes alarms
nor sets the status to `Active`, contrary to the claim. -/
theorem c6_resolve_crashes :
    FcsApi.resolve_alarms alarmTempState "z1" = (alarmTempState, 500) ∧
    (openAlarmsFor (FcsApi.resolve_alarms alarmTempState "z1").1 "z1").length = 1 ∧
    getZone (FcsApi.resolve_alarms alarmTempState "z1").1 "z1" =
      some zoneTemp := by decide

/-- Zone `z1` in status `Temperature` with no member node and one open
alarm. -/
def zoneOnlyState : SysState :=
  { nodes := [], zones := [zoneTemp], alarms := [openTempAlarm],
    nextNodeId := 0, nextAlarmId := 1, now := 9, connected := true }

/-- Claim C8 (code bug): deleting zone `z1` while node `m1` is assigned
to it crashes on the first iteration of the detach loop
(`node['entity']['data']` / `datetime.timezone` at fcs_api.py:56-57)
before any `update_dr` or the final `delete_dr`: the response is 500,
the node is still assigned and still `Active`, and the zone record is
still present — nothing is detached and the zone is never removed.
Only a zone with no member nodes (for which the loop body never runs,
so there is nothing to detach) is actually deleted. -/
theorem c8_delete_zone_crashes :
    FcsApi.delete_zone alarmTempState "z1" = (alarmTempState, 500) ∧
    (FcsApi.delete_zone alarmTempState "z1").1.nodes = [nodeActive] ∧
    getZone (FcsApi.delete_zone alarmTempState "z1").1 "z1" = some zoneTemp ∧
    FcsApi.delete_zone zoneOnlyState "z1" =
      ({ zoneOnlyState with zones := [] }, 200) := by decide

/-! ## Claims about threshold priority, re-triggering and overrides -/

/-- Claim C2 (corrected), counterexample: with flame detected *and* the
temperature above the zone threshold (thresholds 50/500, temp 60, smoke
0, flame true), the evaluation selects `Temperature`, not `Flame` as the
claim requires. -/
theorem c2_priority_counterexample :
    alarm_type_for 50 500 60 0 true = "Temperature" ∧
    alarm_type_for 50 500 60 0 true ≠ "Flame" := by decide

/-- Claim C2 (corrected), amended: the `if/elif/elif` chain of
`_check_zone_thresholds` gives priority Temperature over Smoke over
Flame; flame-detected yields `Flame` only when both the temperature and
the smoke value are at or under their thresholds. -/
theorem c2_priority_amended (tth sth t s : Rat) (f : Bool) :
    (t > tth → alarm_type_for tth sth t s f = "Temperature") ∧
    (¬t > tth → s > sth → alarm_type_for tth sth t s f = "Smoke") ∧
    (¬t > tth → ¬s > sth → f = true → alarm_type_for tth sth t s f = "Flame") ∧
    (¬t > tth → ¬s > sth → f = false → alarm_type_for tth sth t s f = "") := by
  refine ⟨fun h1 => by simp [alarm_type_for, h1],
          fun h1 h2 => by simp [alarm_type_for, h1, h2],
          fun h1 h2 h3 => by simp [alarm_type_for, h1, h2, h3],
          fun h1 h2 h3 => by simp [alarm_type_for, h1, h2, h3]⟩

theorem c2_priority_amended_witness :
    ((60 : Rat) > 50) ∧ alarm_type_for 50 500 60 0 true = "Temperature" :=
  ⟨by decide, (c2_priority_amended 50 500 60 0 true).1 (by decide)⟩

/-- Claim C3 (corrected), counterexample: zone `z1` is already in
`Temperature` with its open alarm; a second above-threshold temperature
reading creates no new alarm row but *does* publish another
`actuate_alarm` command to the zone's node, contradicting the claim. -/
theorem c3_retrigger_counterexample :
    (MQTTHandler.process_sensor_data alarmTempState "m1" "temp" "60.0").2 =
      [("m1", "actuate_alarm")] ∧
    (MQTTHandler.process_sensor_data alarmTempState "m1" "temp" "60.0").2 ≠ [] ∧
    (MQTTHandler.process_sensor_data alarmTempState "m1" "temp" "60.0").1.alarms =
      alarmTempState.alarms := by decide

/-- Claim C3 (corrected), amended: while a zone has an open alarm,
re-triggering (any cause, in particular re-detection of the same cause)
creates no new alarm record, but `actuate_alarm` is re-published to every
node of the zone on each repeated detection — the command half of the
claimed idempotence does not hold. -/
theorem c3_retrigger_amended (st : SysState) (zone_id c : String) (z : ZoneRec)
    (hz : getZone st zone_id = some z)
    (hopen : openAlarmsFor st zone_id ≠ []) :
    (MQTTHandler.trigger_alarm st zone_id c).1.alarms = st.alarms ∧
    (MQTTHandler.trigger_alarm st zone_id c).2 =
      (nodesByZone st zone_id).foldr
        (fun n acc => MQTTHandler.send_command st n.mac_address "actuate_alarm" ++ acc)
        [] := by
  unfold MQTTHandler.trigger_alarm
  rw [hz]
  simp only
  have hne : (openAlarmsFor (updateZone st zone_id { z with status := c })
      zone_id).isEmpty = false := by
    show (openAlarmsFor st zone_id).isEmpty = false
    cases hcase : openAlarmsFor st zone_id with
    | nil => exact absurd hcase hopen
    | cons x l => rfl
  rw [hne]
  simp only [Bool.false_eq_true, if_false]
  exact ⟨rfl, rfl⟩

theorem c3_retrigger_amended_witness :
    (getZone alarmTempState "z1" = some zoneTemp ∧
      openAlarmsFor alarmTempState "z1" ≠ []) ∧
    ((MQTTHandler.trigger_alarm alarmTempState "z1" "Temperature").1.alarms =
        alarmTempState.alarms ∧
      (MQTTHandler.trigger_alarm alarmTempState "z1" "Temperature").2 =
        (nodesByZone alarmTempState "z1").foldr
          (fun n acc =>
            MQTTHandler.send_command alarmTempState n.mac_address "actuate_alarm" ++ acc)
          []) :=
  ⟨⟨by decide, by decide⟩,
   c3_retrigger_amended alarmTempState "z1" "Temperature" zoneTemp
     (by decide) (by decide)⟩

/-- A zone `z1` currently alarming with cause `Flame`. -/
def zoneFlame : ZoneRec :=
  { zid := "z1", name := "Zone 1", temp_threshold := some 50,
    smoke_threshold := some 500, status := "Flame" }

/-- An open `Flame` alarm for zone `z1`. -/
def openFlameAlarm : AlarmRec :=
  { aid := 0, zone_id := "z1", trigger_cause := "Flame",
    start_time := 5, end_time := none }

/-- Zone `z1` already alarming on `Flame`, with its open alarm row and
one active member node. -/
def alarmFlameState : SysState :=
  { nodes := [nodeActive], zones := [zoneFlame], alarms := [openFlameAlarm],
    nextNodeId := 1, nextAlarmId := 1, now := 9, connected := true }

/-- Claim C4 (corrected), counterexample: zone `z1` is alarming on
`Flame`; an above-threshold temperature reading processed by the
ingestion pipeline overwrites the zone's status to `Temperature`,
contradicting the claim that the pipeline never changes an alarming
zone's cause. -/
theorem c4_override_counterexample :
    zoneFlame.status = "Flame" ∧
    getZone (MQTTHandler.process_sensor_data alarmFlameState "m1" "temp" "60.0").1
        "z1" = some { zoneFlame with status := "Temperature" } ∧
    ("Temperature" : String) ≠ "Flame" := by decide

/-- Claim C4 (corrected), amended: `_check_zone_thresholds` is guarded by
the *node's* status, never by the zone's; whenever a reading yields a
cause, the zone's status is overwritten with that cause regardless of
the zone's current (possibly different alarm-cause) status. -/
theorem c4_override_amended (st : SysState) (zone_id : String) (z : ZoneRec)
    (t s : Rat) (f : Bool) (c : String)
    (hz : getZone st zone_id = some z)
    (hc : alarm_type_for (z.temp_threshold.getD 50) (z.smoke_threshold.getD 500)
        t s f = c)
    (hcne : c ≠ "") :
    getZone (MQTTHandler.check_zone_thresholds st zone_id t s f).1 zone_id =
      some { z with status := c } := by
  unfold MQTTHandler.check_zone_thresholds
  rw [hz]
  simp only [hc]
  rw [if_pos hcne]
  unfold MQTTHandler.trigger_alarm
  rw [hz]
  simp only
  split
  · exact getZone_updateZone hz rfl
  · exact getZone_updateZone hz rfl

theorem c4_override_amended_witness :
    (getZone alarmFlameState "z1" = some zoneFlame ∧
      alarm_type_for 50 500 60 0 false = "Temperature" ∧
      ("Temperature" : String) ≠ "") ∧
    getZone (MQTTHandler.check_zone_thresholds alarmFlameState "z1" 60 0 false).1
        "z1" = some { zoneFlame with status := "Temperature" } :=
  ⟨⟨by decide, by decide, by decide⟩,
   c4_override_amended alarmFlameState "z1" zoneFlame 60 0 false "Temperature"
     (by decide) (by decide) (by decide)⟩

/-! ## Claims about node reading updates and the open-alarm invariant -/

theorem trigger_alarm_nodes (st : SysState) (zone_id c : String) :
    (MQTTHandler.trigger_alarm st zone_id c).1.nodes = st.nodes := by
  unfold MQTTHandler.trigger_alarm
  cases getZone st zone_id with
  | none => rfl
  | some z =>
    simp only
    split <;> rfl

theorem check_zone_thresholds_nodes (st : SysState) (zone_id : String)
    (t s : Rat) (f : Bool) :
    (MQTTHandler.check_zone_thresholds st zone_id t s f).1.nodes = st.nodes := by
  unfold MQTTHandler.check_zone_thresholds
  cases getZone st zone_id with
  | none => rfl
  | some z =>
    simp only
    split
    · exact trigger_alarm_nodes st zone_id _
    · split
      · split
        · split <;> rfl
        · rfl
      · rfl

/-- `parse_sensor_vals` on a `temp` event is the payload parse alone. -/
theorem parse_sensor_vals_temp (payload : String) :
    MQTTHandler.parse_sensor_vals "temp" payload =
      match pyFloat payload with
      | some v => some (false, 0, v)
      | none => none := rfl

/-- `parse_sensor_vals` on a `smoke` event is the payload parse alone. -/
theorem parse_sensor_vals_smoke (payload : String) :
    MQTTHandler.parse_sensor_vals "smoke" payload =
      match pyFloat payload with
      | some v => some (false, v, 0)
      | none => none := rfl

/-- `parse_sensor_vals` on a `flame` event always succeeds, carrying the
stripped-payload comparison with `"0"`. -/
theorem parse_sensor_vals_flame (payload : String) :
    MQTTHandler.parse_sensor_vals "flame" payload =
      some (pyStrip payload == "0", 0, 0) := rfl

/-- Whenever the parse step of `_process_sensor_data` yields the
accumulated triple, the known node's data block is replaced wholesale
with exactly that triple plus a fresh last-seen. -/
theorem process_sensor_data_nodes (st : SysState)
    (mac sensor_type payload : String) (vf : Bool) (vs vt : Rat)
    (node : NodeRec) (rest : List NodeRec)
    (hp : MQTTHandler.parse_sensor_vals sensor_type payload = some (vf, vs, vt))
    (hfind : nodesByMac st mac = node :: rest) :
    (MQTTHandler.process_sensor_data st mac sensor_type payload).1.nodes =
      st.nodes.map (fun n0 =>
        if n0.nid == node.nid then
          { node with data :=
            { status := node.data.status, last_seen := st.now,
              flame_detected := some vf, smoke_level := some vs,
              temp_level := some vt } }
        else n0) := by
  unfold MQTTHandler.process_sensor_data
  rw [hp]
  simp only [hfind]
  split
  · rw [check_zone_thresholds_nodes]
    rfl
  · rfl

/-- A registered node holding earlier readings from other sensor kinds
(flame detected, smoke 100, temperature 20) and no zone. -/
def nodeWithReadings : NodeRec :=
  { nid := 0, mac_address := "m1", zone_id := none,
    data := { status := "Provisioning", last_seen := 2,
              flame_detected := some true, smoke_level := some 100,
              temp_level := some 20 } }

/-- A store containing only `nodeWithReadings`. -/
def readingsState : SysState :=
  { nodes := [nodeWithReadings], zones := [], alarms := [],
    nextNodeId := 1, nextAlarmId := 0, now := 10, connected := true }

/-- Claim C7 (corrected), counterexample: node `m1` holds earlier
readings `flame_detected = some true`, `smoke_level = some 100`; after a
single `temp` event of `30.0` the node's smoke level has been reset to 0
and its flame flag to false — the fields absent from the event were not
left unchanged. -/
theorem c7_sparse_update_counterexample :
    (MQTTHandler.process_sensor_data readingsState "m1" "temp" "30.0").1.nodes =
      [{ nid := 0, mac_address := "m1", zone_id := none,
         data := { status := "Provisioning", last_seen := 10,
                   flame_detected := some false, smoke_level := some 0,
                   temp_level := some 30 } }] := by decide

/-- Claim C7 (corrected), amended: a single-kind sensor event (`temp`,
`smoke` or `flame`) updates the node's last-seen and the reading field
of that kind, but *overwrites* the other two reading fields with their
defaults (flame false, smoke 0.0, temp 0.0) rather than leaving them
unchanged; identity, zone reference and status are preserved. -/
theorem c7_overwrite_amended (st : SysState) (mac payload : String)
    (node : NodeRec) (rest : List NodeRec)
    (hfind : nodesByMac st mac = node :: rest) :
    (∀ v : Rat, pyFloat payload = some v →
      (MQTTHandler.process_sensor_data st mac "temp" payload).1.nodes =
        st.nodes.map (fun n0 =>
          if n0.nid == node.nid then
            { node with data :=
              { status := node.data.status, last_seen := st.now,
                flame_detected := some false, smoke_level := some 0,
                temp_level := some v } }
          else n0)) ∧
    (∀ v : Rat, pyFloat payload = some v →
      (MQTTHandler.process_sensor_data st mac "smoke" payload).1.nodes =
        st.nodes.map (fun n0 =>
          if n0.nid == node.nid then
            { node with data :=
              { status := node.data.status, last_seen := st.now,
                flame_detected := some false, smoke_level := some v,
                temp_level := some 0 } }
          else n0)) ∧
    ((MQTTHandler.process_sensor_data st mac "flame" payload).1.nodes =
      st.nodes.map (fun n0 =>
        if n0.nid == node.nid then
          { node with data :=
            { status := node.data.status, last_seen := st.now,
              flame_detected := some (pyStrip payload == "0"),
              smoke_level := some 0, temp_level := some 0 } }
        else n0)) := by
  refine ⟨fun v hv => ?_, fun v hv => ?_, ?_⟩
  · exact process_sensor_data_nodes st mac "temp" payload false 0 v node rest
      (by rw [parse_sensor_vals_temp, hv]) hfind
  · exact process_sensor_data_nodes st mac "smoke" payload false v 0 node rest
      (by rw [parse_sensor_vals_smoke, hv]) hfind
  · exact process_sensor_data_nodes st mac "flame" payload
      (pyStrip payload == "0") 0 0 node rest (parse_sensor_vals_flame payload) hfind

theorem c7_overwrite_amended_witness :
    (nodesByMac readingsState "m1" = [nodeWithReadings] ∧
      pyFloat "30.0" = some 30) ∧
    (MQTTHandler.process_sensor_data readingsState "m1" "temp" "30.0").1.nodes =
      readingsState.nodes.map (fun n0 =>
        if n0.nid == nodeWithReadings.nid then
          { nodeWithReadings with data :=
            { status := nodeWithReadings.data.status, last_seen := readingsState.now,
              flame_detected := some false, smoke_level := some 0,
              temp_level := some 30 } }
        else n0) ∧
    (MQTTHandler.process_sensor_data readingsState "m1" "smoke" "30.0").1.nodes =
      readingsState.nodes.map (fun n0 =>
        if n0.nid == nodeWithReadings.nid then
          { nodeWithReadings with data :=
            { status := nodeWithReadings.data.status, last_seen := readingsState.now,
              flame_detected := some false, smoke_level := some 30,
              temp_level := some 0 } }
        else n0) ∧
    (MQTTHandler.process_sensor_data readingsState "m1" "flame" "30.0").1.nodes =
      readingsState.nodes.map (fun n0 =>
        if n0.nid == nodeWithReadings.nid then
          { nodeWithReadings with data :=
            { status := nodeWithReadings.data.status, last_seen := readingsState.now,
              flame_detected := some (pyStrip "30.0" == "0"),
              smoke_level := some 0, temp_level := some 0 } }
        else n0) :=
  ⟨⟨by decide, by decide⟩,
   (c7_overwrite_amended readingsState "m1" "30.0" nodeWithReadings []
       (by decide)).1 30 (by decide),
   (c7_overwrite_amended readingsState "m1" "30.0" nodeWithReadings []
       (by decide)).2.1 30 (by decide),
   (c7_overwrite_amended readingsState "m1" "30.0" nodeWithReadings []
       (by decide)).2.2⟩

/-- The at-most-one-open-alarm invariant of the spec: every zone id has
at most one alarm row with `end_time = null`. -/
def atMostOneOpenAlarm (st : SysState) : Prop :=
  ∀ zone_id : String, (openAlarmsFor st zone_id).length ≤ 1

/-- One step of the system as far as claim C1 is concerned: an inbound
MQTT message handled by the ingestion pipeline, or an administrative
alarm trigger. -/
inductive SysEvent where
  | mqtt (topic : String) (payload : Option String)
  | adminTrigger (zone_id trigger_cause : String)
deriving DecidableEq

/-- Apply one event to the store. -/
def applyEvent (st : SysState) : SysEvent → SysState
  | .mqtt topic payload => (MQTTHandler.on_message st topic payload).1
  | .adminTrigger zone_id trigger_cause =>
      (FcsApi.trigger_alarm st zone_id trigger_cause).1

/-- Run an interleaving of events, oldest first. -/
def runEvents (st : SysState) : List SysEvent → SysState
  | [] => st
  | e :: es => runEvents (applyEvent st e) es

/-- The administrative trigger endpoint never changes the store: every
branch (invalid cause 400, missing zone 404, `AttributeError` 500)
returns before any write. -/
theorem fcs_trigger_alarm_state (st : SysState) (zone_id trigger_cause : String) :
    (FcsApi.trigger_alarm st zone_id trigger_cause).1 = st := by
  unfold FcsApi.trigger_alarm
  split
  · cases getZone st zone_id <;> rfl
  · rfl

/-- Saving a fresh open alarm for a zone adds exactly one open alarm to
that zone and none to any other. -/
theorem openAlarmsFor_saveAlarm_length (st : SysState)
    (zone_id trigger_cause x : String) :
    (openAlarmsFor (saveAlarm st zone_id trigger_cause) x).length =
      (openAlarmsFor st x).length + (if (zone_id == x) = true then 1 else 0) := by
  unfold openAlarmsFor saveAlarm
  rw [List.filter_append, List.length_append]
  congr 1
  by_cases h : (zone_id == x) = true
  · rw [if_pos h]
    simp [List.filter, h]
  · rw [if_neg h]
    simp [List.filter, h]

theorem trigger_alarm_invariant (st : SysState) (zone_id c : String)
    (hinv : atMostOneOpenAlarm st) :
    atMostOneOpenAlarm (MQTTHandler.trigger_alarm st zone_id c).1 := by
  unfold MQTTHandler.trigger_alarm
  cases hz : getZone st zone_id with
  | none => exact hinv
  | some z =>
    simp only
    split
    · rename_i hempty
      intro x
      rw [openAlarmsFor_saveAlarm_length]
      by_cases hx : (zone_id == x) = true
      · rw [if_pos hx]
        have hxeq : zone_id = x := by simpa using hx
        subst hxeq
        have h0 : openAlarmsFor (updateZone st zone_id { z with status := c })
            zone_id = [] := by
          rwa [List.isEmpty_iff] at hempty
        rw [h0]
        decide
      · rw [if_neg hx]
        simpa using hinv x
    · exact fun x => hinv x

theorem check_zone_thresholds_invariant (st : SysState) (zone_id : String)
    (t s : Rat) (f : Bool) (hinv : atMostOneOpenAlarm st) :
    atMostOneOpenAlarm (MQTTHandler.check_zone_thresholds st zone_id t s f).1 := by
  unfold MQTTHandler.check_zone_thresholds
  cases getZone st zone_id with
  | none => exact hinv
  | some z =>
    simp only
    split
    · exact trigger_alarm_invariant st zone_id _ hinv
    · split
      · split
        · split
          · exact hinv
          · exact hinv
        · exact hinv
      · exact hinv

theorem handle_discovery_invariant (st : SysState) (mac : String)
    (hinv : atMostOneOpenAlarm st) :
    atMostOneOpenAlarm (MQTTHandler.handle_discovery st mac) := by
  intro x
  have h : openAlarmsFor (MQTTHandler.handle_discovery st mac) x =
      openAlarmsFor st x := by
    unfold MQTTHandler.handle_discovery openAlarmsFor
    split <;> rfl
  rw [h]
  exact hinv x

theorem process_sensor_data_invariant (st : SysState)
    (mac sensor_type payload : String) (hinv : atMostOneOpenAlarm st) :
    atMostOneOpenAlarm (MQTTHandler.process_sensor_data st mac sensor_type payload).1 := by
  unfold MQTTHandler.process_sensor_data
  cases MQTTHandler.parse_sensor_vals sensor_type payload with
  | none => exact hinv
  | some vals =>
    obtain ⟨vf, vs, vt⟩ := vals
    simp only
    cases nodesByMac st mac with
    | nil => exact handle_discovery_invariant st mac hinv
    | cons node rest =>
      simp only
      split
      · exact check_zone_thresholds_invariant _ _ _ _ _ (fun x => hinv x)
      · exact fun x => hinv x

theorem on_message_invariant (st : SysState) (topic : String)
    (payload : Option String) (hinv : atMostOneOpenAlarm st) :
    atMostOneOpenAlarm (MQTTHandler.on_message st topic payload).1 := by
  unfold MQTTHandler.on_message
  cases payload with
  | none => exact hinv
  | some payload_str =>
    simp only
    split
    · exact hinv
    · split
      · split
        · exact handle_discovery_invariant st _ hinv
        · exact hinv
      · split
        · exact process_sensor_data_invariant st _ _ _ hinv
        · exact hinv

theorem applyEvent_invariant (st : SysState) (e : SysEvent)
    (hinv : atMostOneOpenAlarm st) : atMostOneOpenAlarm (applyEvent st e) := by
  cases e with
  | mqtt topic payload => exact on_message_invariant st topic payload hinv
  | adminTrigger zone_id trigger_cause =>
    rw [applyEvent, fcs_trigger_alarm_state]
    exact hinv

/-- Claim C1 (confirmed): from any state satisfying the
at-most-one-open-alarm invariant, every interleaving of sensor-driven
triggering (ingestion pipeline messages) and administrative alarm
triggering preserves it: `_trigger_alarm` opens a row only when the zone
has no open alarm, and the administrative `trigger_alarm` endpoint
always raises `AttributeError` (fcs_api.py:240) before `insert_dr`, so
it never writes at all. -/
theorem c1_at_most_one_open_alarm (st : SysState)
    (hinv : atMostOneOpenAlarm st) (es : List SysEvent) :
    atMostOneOpenAlarm (runEvents st es) := by
  induction es generalizing st with
  | nil => exact hinv
  | cons e es ih => exact ih (applyEvent st e) (applyEvent_invariant st e hinv)

theorem c1_at_most_one_open_alarm_witness :
    atMostOneOpenAlarm baseState ∧
    atMostOneOpenAlarm (runEvents baseState
      [SysEvent.mqtt "devices/m1/sensor/temp" (some "60.0"),
       SysEvent.adminTrigger "z1" "manual"]) :=
  ⟨fun _ => Nat.zero_le 1,
   c1_at_most_one_open_alarm baseState (fun _ => Nat.zero_le 1)
     [SysEvent.mqtt "devices/m1/sensor/temp" (some "60.0"),
      SysEvent.adminTrigger "z1" "manual"]⟩
